import Mathlib

/-!
Verification of the weather MCP server (src/server.py) against its
natural-language specification.

Shallow embedding conventions:
* Python float and int scalars that reach the tools inside provider JSON
  payloads are only ever interpolated into f-strings, never computed with,
  so every scalar is carried as its decimal rendering (a String).  The
  lat and lon tool arguments are likewise carried as their renderings.
* Parsed JSON documents are modelled by the inductive type Json below.
  Subscription of a missing key or index, and attribute access on a value
  of the wrong shape, raise exceptions in Python; the embedding returns
  them in the error component of an Except, keeping raised exceptions
  distinct from strings the tools return normally.
* Each tool performs exactly one HTTP round trip.  The response it gets
  back is an explicit input of the embedded function (status code plus
  the parsed body), so the embedded tools are pure functions of their
  arguments and of the provider response.
-/

/-- A single-quote character, used inside the error message literals of the
source (written via its code point to keep the file free of quote signs). -/
def sQuote : String := String.singleton (Char.ofNat 39)

/-- Python exceptions that the source can raise while handling a response:
KeyError (missing dict key), IndexError (list index out of range),
TypeError (wrong arity at a call site, or subscripting a non-container),
ValueError (unpacking an iterable of the wrong length), and AttributeError
(calling a method the value does not have). -/
inductive PyErr where
  | keyError
  | indexError
  | typeError
  | valueError
  | attributeError
deriving DecidableEq

/-- A parsed JSON document as Python json() returns it.  Numeric leaves are
carried as their decimal rendering (see the header comment). -/
inductive Json where
  | num (s : String)
  | str (s : String)
  | arr (xs : List Json)
  | obj (fs : List (String × Json))

mutual
/-- Python str() of a parsed JSON value, which is what an f-string
interpolation produces: scalars render bare, containers render their repr. -/
def Json.render : Json → String
  | .num s => s
  | .str s => s
  | .arr xs => "[" ++ String.intercalate ", " (renderElems xs) ++ "]"
  | .obj fs => "\x7b" ++ String.intercalate ", " (renderFields fs) ++ "\x7d"

/-- Python repr() of a parsed JSON value, used for values nested inside a
container (strings are quoted there). -/
def Json.reprPy : Json → String
  | .num s => s
  | .str s => sQuote ++ s ++ sQuote
  | .arr xs => "[" ++ String.intercalate ", " (renderElems xs) ++ "]"
  | .obj fs => "\x7b" ++ String.intercalate ", " (renderFields fs) ++ "\x7d"

/-- repr() of each element of a Python list. -/
def renderElems : List Json → List String
  | [] => []
  | j :: js => Json.reprPy j :: renderElems js

/-- repr() of each key/value pair of a Python dict. -/
def renderFields : List (String × Json) → List String
  | [] => []
  | kv :: fs => (sQuote ++ kv.1 ++ sQuote ++ ": " ++ Json.reprPy kv.2) :: renderFields fs
end

/-- Python truthiness of a parsed JSON value (empty containers, the empty
string and numeric zero are falsy), as tested by the line
if not data: of get_coordinates. -/
def Json.truthy : Json → Bool
  | .num s => !(s == "0" || s == "0.0" || s == "-0.0")
  | .str s => !s.isEmpty
  | .arr xs => !xs.isEmpty
  | .obj fs => !fs.isEmpty

/-- Python subscription value[key] for a string key.  On a dict it is a key
lookup (KeyError when absent); on any other value Python raises TypeError. -/
def Json.item : Json → String → Except PyErr Json
  | .obj fs, k =>
    match fs.lookup k with
    | some v => .ok v
    | none => .error .keyError
  | _, _ => .error .typeError

/-- Python subscription value[i] for an integer index.  On a list it is
positional (IndexError when out of range); on a dict it is a lookup of the
integer key, which is never present in the provider payloads modelled here
(KeyError); on a scalar Python raises TypeError. -/
def Json.itemIdx : Json → Nat → Except PyErr Json
  | .arr xs, i =>
    match xs[i]? with
    | some v => .ok v
    | none => .error .indexError
  | .obj _, _ => .error .keyError
  | _, _ => .error .typeError

/-- Python dict .get(key, default).  On a non-dict value the attribute
access .get itself raises AttributeError. -/
def Json.getDefault : Json → String → Json → Except PyErr Json
  | .obj fs, k, d => .ok ((fs.lookup k).getD d)
  | _, _, _ => .error .attributeError

/-- The source iterates over a payload field with len() and integer
indexing; among the payload shapes a provider can return only a list
supports that, every other shape raises TypeError at len(). -/
def Json.asArr : Json → Except PyErr (List Json)
  | .arr xs => .ok xs
  | _ => .error .typeError

/-- The source calls the string method .split on a payload value; on a
non-string value the attribute access raises AttributeError. -/
def Json.asStr : Json → Except PyErr String
  | .str s => .ok s
  | _ => .error .attributeError

/-- One HTTP response as the tools observe it: the status code and the
parsed JSON body (response.json()). -/
structure HttpResponse where
  status_code : Nat
  body : Json

/-- Module initialisation, lines 7-8: API_KEY = os.getenv("API_KEY").
os.getenv returns None when the variable is absent from the environment;
the module body performs no presence check and startup continues. -/
def API_KEY (env : String → Option String) : Option String :=
  env "API_KEY"

/-- The params dict built by get_current_weather (lines 19-24); the appid
entry holds whatever API_KEY was bound to, None included. -/
def get_current_weather_params (lat lon units : String) (api_key : Option String) :
    List (String × Option String) :=
  [("lat", some lat), ("lon", some lon), ("appid", api_key), ("units", some units)]

/-- Lines 26 and 55: the rendered unit symbol. -/
def unit_symbol (units : String) : String :=
  if units == "imperial" then "°F" else "°C"

/-- The success rendering of get_current_weather (line 41). -/
def weatherSuccessString (lat lon desc temp us humidity wind_speed wind_direction : String) :
    String :=
  "The current weather in (" ++ lat ++ ", " ++ lon ++ ") is " ++ desc ++
    " with a temperature of " ++ temp ++ us ++ " and humidity of " ++
    humidity ++ "%. The wind speed is " ++ wind_speed ++ " m/s at " ++
    wind_direction ++ "°."

/-- Tool get_current_weather (lines 14-41).  Embeds the body that runs after
the HTTP round trip, as a function of the response. -/
def get_current_weather (lat lon units : String) (response : HttpResponse) :
    Except PyErr String :=
  let us := unit_symbol units
  if response.status_code != 200 then
    pure ("Error: Could not find weather for " ++ sQuote ++ lat ++ ", " ++ lon ++ sQuote ++
      ". (Status: " ++ toString response.status_code ++ ")")
  else do
    let data := response.body
    let temp ← data.item "main" >>= (Json.item · "temp")
    let desc ← data.item "weather" >>= (Json.itemIdx · 0) >>= (Json.item · "description")
    let humidity ← data.item "main" >>= (Json.item · "humidity")
    let wind_speed ← data.item "wind" >>= (Json.item · "speed")
    let wind_direction ← data.item "wind" >>= (Json.item · "deg")
    pure (weatherSuccessString lat lon desc.render temp.render us humidity.render
      wind_speed.render wind_direction.render)

/-- Python range(start, stop, step) for a positive step. -/
def pyRange (start stop step : Nat) : List Nat :=
  (List.range ((stop - start + step - 1) / step)).map (fun k => start + step * k)

/-- Python s.split(" ")[0]: split with an explicit separator never returns
an empty list, so taking index 0 cannot fail, and the first piece is the
prefix of the string up to (not including) its first space. -/
def pySplitHead (s : String) : String :=
  ⟨s.data.takeWhile (fun c => c != ' ')⟩

/-- The one-line summary string the forecast loop builds (lines 75-78). -/
def daySummaryStr (us date temp desc humidity wind_speed wind_direction : String) : String :=
  date ++ ": " ++ temp ++ us ++ ", " ++ desc ++ ". Humidity: " ++
    humidity ++ "%, Wind: " ++ wind_speed ++ " m/s at " ++ wind_direction ++ "°"

/-- The body of the for-loop of get_5_day_forecast (lines 66-78) at one
index of the sampled range: reads the sampled entry and produces its
one-line summary, raising as Python would on a malformed entry. -/
def forecastBody (us : String) (forecast_list : List Json) (i : Nat) :
    Except PyErr String := do
  let day_data ←
    match forecast_list[i]? with
    | some d => Except.ok d
    | none => Except.error PyErr.indexError
  let dt ← day_data.item "dt_txt" >>= Json.asStr
  let date := pySplitHead dt
  let temp ← day_data.item "main" >>= (Json.item · "temp")
  let desc ← day_data.item "weather" >>= (Json.itemIdx · 0) >>= (Json.item · "description")
  let humidity ← day_data.item "main" >>= (Json.item · "humidity")
  let wind_speed ← day_data.item "wind" >>= (Json.item · "speed")
  let wind_direction ← day_data.item "wind" >>= (Json.item · "deg")
  pure (daySummaryStr us date temp.render desc.render humidity.render
    wind_speed.render wind_direction.render)

/-- The for-loop of get_5_day_forecast: visits the sampled indices in order,
collecting the summaries; the first exception aborts the loop as in Python. -/
def forecastLoop (us : String) (forecast_list : List Json) :
    List Nat → Except PyErr (List String)
  | [] => .ok []
  | i :: is => do
    let s ← forecastBody us forecast_list i
    let rest ← forecastLoop us forecast_list is
    pure (s :: rest)

/-- The header line of the forecast result (line 80). -/
def forecastHeader (lat lon : String) : String :=
  "5-Day Forecast for (" ++ lat ++ ", " ++ lon ++ "):\n"

/-- Tool get_5_day_forecast (lines 44-80), as a function of the response. -/
def get_5_day_forecast (lat lon units : String) (response : HttpResponse) :
    Except PyErr String :=
  let us := unit_symbol units
  if response.status_code != 200 then
    pure ("Error: Could not fetch forecast for (" ++ lat ++ ", " ++ lon ++ ").")
  else do
    let forecast_list ← response.body.item "list" >>= Json.asArr
    let daily_summaries ← forecastLoop us forecast_list (pyRange 0 forecast_list.length 8)
    pure (forecastHeader lat lon ++ String.intercalate "\n" daily_summaries)

/-- Tool get_air_quality (lines 82-99), as a function of the response. -/
def get_air_quality (lat lon : String) (response : HttpResponse) :
    Except PyErr String :=
  if response.status_code != 200 then
    pure ("Error: Could not fetch air quality data for coordinates (" ++ lat ++ ", " ++
      lon ++ ").")
  else do
    let aqi ← response.body.item "list" >>= (Json.itemIdx · 0) >>= (Json.item · "main") >>=
      (Json.item · "aqi")
    pure ("The air quality index at coordinates (" ++ lat ++ ", " ++ lon ++ ") is " ++
      aqi.render ++ ".")

/-- Tool get_uv_index (lines 101-118).  Note that the source checks no
status code here: it reads the payload unconditionally. -/
def get_uv_index (lat lon : String) (response : HttpResponse) :
    Except PyErr String := do
  let uv_max ← response.body.item "daily" >>= (Json.item · "uv_index_max") >>=
    (Json.itemIdx · 0)
  pure ("The maximum UV index at coordinates (" ++ lat ++ ", " ++ lon ++ ") today is " ++
    uv_max.render ++ ".")

/-- The success rendering of get_coordinates (line 150). -/
def coordSuccess (name state lat lon : Json) : String :=
  "Location: " ++ name.render ++ ", " ++ state.render ++ " | Latitude: " ++
    lat.render ++ ", Longitude: " ++ lon.render

/-- The zero-match message of get_coordinates (line 142). -/
def geoNotFoundMsg (location : String) : String :=
  "Error: Could not find coordinates for " ++ sQuote ++ location ++ sQuote ++ "."

/-- Tool get_coordinates (lines 120-150), as a function of the response. -/
def get_coordinates (location : String) (response : HttpResponse) :
    Except PyErr String :=
  if response.status_code != 200 then
    pure ("Error: API call failed with status " ++ toString response.status_code)
  else
    let data := response.body
    if !data.truthy then
      pure (geoNotFoundMsg location)
    else do
      let place ← data.itemIdx 0
      let lat ← place.item "lat"
      let lon ← place.item "lon"
      let name ← place.item "name"
      let state ← place.getDefault "state" (.str "N/A")
      pure (coordSuccess name state lat lon)

/-- The value returned by the sampling capability; the source reads its
.text attribute (line 170). -/
structure SampleResult where
  text : String

/-- The capabilities the host hands the tool through ctx (treated as an
external collaborator): call_tool dispatches a named tool on an argument
and yields the string result that tool produced, and sample submits a
prompt to the judgment capability. -/
structure Ctx where
  call_tool : String → String → String
  sample : String → SampleResult

/-- Line 157: lat, lon = (string result of the geocoding tool).  Python
unpacks the iterable on the right into exactly two targets, so a string
succeeds only when it has exactly two characters; otherwise ValueError. -/
def unpack2 (s : String) : Except PyErr (Char × Char) :=
  match s.data with
  | [a, b] => .ok (a, b)
  | _ => .error .valueError

/-- Line 158: current_weather_data = await get_current_weather(city, "metric").
get_current_weather takes the three parameters (lat, lon, units); this call
site supplies only two positional arguments, so Python raises TypeError at
the call, before any request is issued. -/
def orchestratorWeatherCall (city units : String) : Except PyErr String :=
  .error .typeError

/-- Line 159: weather_data_5_days = await get_5_day_forecast(city, "metric").
Same arity fault as line 158: two positional arguments against three
parameters, so Python raises TypeError at the call. -/
def orchestratorForecastCall (city units : String) : Except PyErr String :=
  .error .typeError

/-- Python str() of an Optional[str]: None renders as the word None. -/
def pyStrOpt : Option String → String
  | some s => s
  | none => "None"

/-- The sentence of the judgment prompt that instructs the sampling
capability to invoke this same tool again (line 166). -/
def selfCallInstruction : String :=
  "Use the get_location_recommendation tool to find the alternative city."

/-- The judgment prompt of lines 162-167, an f-string over the triple, the
current-weather string and the forecast string (whitespace as in source). -/
def recommendationPrompt (city region : String) (vacation_type : Option String)
    (current_weather_data weather_data_5_days : String) : String :=
  "The user is planning a " ++ pyStrOpt vacation_type ++ " vacation in " ++ city ++
    ", " ++ region ++ ". \n        The current weather is: " ++ current_weather_data ++
    "\n        The 5-day forecast is: " ++ weather_data_5_days ++
    ".\n\n        Based on all this data, give me a detailed recommendation on whether this city is suitable for the vacation type and what to expect. If not, suggest an alternative city in the same region with better weather conditions for the vacation type. " ++
    selfCallInstruction ++ "\n        "

/-- Tool get_location_recommendation (lines 153-170), the recommendation
orchestrator, over the ctx capabilities. -/
def get_location_recommendation (city region : String) (vacation_type : Option String)
    (ctx : Ctx) : Except PyErr String := do
  let (lat, lon) ← unpack2 (ctx.call_tool "get_coordinates" city)
  let current_weather_data ← orchestratorWeatherCall city "metric"
  let weather_data_5_days ← orchestratorForecastCall city "metric"
  let result := ctx.sample
    (recommendationPrompt city region vacation_type current_weather_data weather_data_5_days)
  pure result.text

/-- One well-formed three-hour point of a forecast payload, all scalars
carried as their renderings. -/
structure FPoint where
  dt_txt : String
  temp : String
  description : String
  humidity : String
  wind_speed : String
  wind_deg : String

instance : Inhabited FPoint := ⟨⟨"", "", "", "", "", ""⟩⟩

/-- The provider JSON shape of one three-hour point, exactly the fields the
loop of get_5_day_forecast reads. -/
def FPoint.toJson (p : FPoint) : Json :=
  .obj [("dt_txt", .str p.dt_txt),
        ("main", .obj [("temp", .num p.temp), ("humidity", .num p.humidity)]),
        ("weather", .arr [.obj [("description", .str p.description)]]),
        ("wind", .obj [("speed", .num p.wind_speed), ("deg", .num p.wind_deg)])]

/-- A successful forecast response body: a dict whose list field holds the
three-hour series. -/
def forecastPayload (pts : List FPoint) : Json :=
  .obj [("list", .arr (pts.map FPoint.toJson))]

/-- The date part of a three-hour point, as the loop extracts it
(dt_txt.split(" ")[0]). -/
def FPoint.datePart (p : FPoint) : String :=
  pySplitHead p.dt_txt

/-- The one-line summary the loop builds for one sampled point. -/
def daySummary (us : String) (p : FPoint) : String :=
  daySummaryStr us p.datePart p.temp p.description p.humidity p.wind_speed p.wind_deg

/-- The stride-8 sample of a series: the points at indices 0, 8, 16, ... -/
def sampleStride8 (pts : List FPoint) : List FPoint :=
  (pyRange 0 pts.length 8).map (fun i => pts.getD i default)

/-- The stub provider payload of the scenario in the spec (section 8):
temp 5, humidity 80, description light rain, wind 3 m/s at 200 degrees. -/
def c9Body : Json :=
  .obj [("main", .obj [("temp", .num "5"), ("humidity", .num "80")]),
        ("weather", .arr [.obj [("description", .str "light rain")]]),
        ("wind", .obj [("speed", .num "3"), ("deg", .num "200")])]

/-- The exact suffix the scenario requires of the rendered result. -/
def c9Suffix : String :=
  "light rain with a temperature of 5°C and humidity of 80%. The wind speed is 3 m/s at 200°."

/-- A ctx whose geocoding dispatch succeeds with a fixed resolved location
(used to instantiate the orchestrator theorems). -/
def geocodeOkCtx : Ctx :=
  ⟨fun _ _ => coordSuccess (.str "Toronto") (.str "Ontario") (.num "43.65") (.num "-79.38"),
   fun _ => ⟨""⟩⟩

/-- A ctx whose geocoding dispatch reports the zero-match message. -/
def geocodeFailCtx : Ctx :=
  ⟨fun _ => geoNotFoundMsg, fun _ => ⟨""⟩⟩

/-- A concrete well-formed nine-point series (two calendar days), used to
instantiate the forecast normalization theorem. -/
def pts9 : List FPoint :=
  [⟨"2025-07-01 00:00:00", "20", "clear sky", "50", "3", "180"⟩,
   ⟨"2025-07-01 03:00:00", "19", "clear sky", "52", "3", "180"⟩,
   ⟨"2025-07-01 06:00:00", "21", "few clouds", "48", "4", "190"⟩,
   ⟨"2025-07-01 09:00:00", "24", "few clouds", "40", "4", "200"⟩,
   ⟨"2025-07-01 12:00:00", "26", "clear sky", "35", "5", "210"⟩,
   ⟨"2025-07-01 15:00:00", "25", "clear sky", "37", "5", "210"⟩,
   ⟨"2025-07-01 18:00:00", "22", "clear sky", "45", "4", "200"⟩,
   ⟨"2025-07-01 21:00:00", "20", "clear sky", "50", "3", "190"⟩,
   ⟨"2025-07-02 00:00:00", "19", "light rain", "70", "6", "220"⟩]

/-- A well-formed current-weather response body, exactly the fields
get_current_weather reads, all scalars carried as their renderings. -/
def weatherBody (temp desc humidity wind_speed wind_deg : String) : Json :=
  .obj [("main", .obj [("temp", .num temp), ("humidity", .num humidity)]),
        ("weather", .arr [.obj [("description", .str desc)]]),
        ("wind", .obj [("speed", .num wind_speed), ("deg", .num wind_deg)])]

set_option maxRecDepth 8000

/-- One step of the for-loop of get_5_day_forecast over a list of
well-formed points succeeds and produces the summary of the sampled
point. -/
theorem forecastBody_eval (us : String) (pts : List FPoint) (i : Nat) (p : FPoint)
    (hp : pts[i]? = some p) :
    forecastBody us (pts.map FPoint.toJson) i = .ok (daySummary us p) := by
  unfold forecastBody
  rw [List.getElem?_map, hp]
  rfl

/-- The whole loop over in-range indices succeeds and maps each index to
the summary of the point it samples. -/
theorem forecastLoop_eval (us : String) (pts : List FPoint) (idxs : List Nat)
    (h : ∀ i ∈ idxs, i < pts.length) :
    forecastLoop us (pts.map FPoint.toJson) idxs
      = .ok (idxs.map (fun i => daySummary us (pts.getD i default))) := by
  induction idxs with
  | nil => rfl
  | cons i is ih =>
    have hi : i < pts.length := h i (List.mem_cons_self i is)
    have hp : pts[i]? = some (pts.getD i default) := by
      rw [List.getElem?_eq_getElem hi]
      simp [List.getD, List.getElem?_eq_getElem hi]
    rw [forecastLoop, forecastBody_eval us pts i _ hp,
      ih (fun j hj => h j (List.mem_cons_of_mem _ hj))]
    rfl

/-- Arithmetic of the stride-8 range: every sampled index is in range. -/
theorem mul8_lt (k n : Nat) (h : k < (n + 7) / 8) : 8 * k < n := by
  have h2 := Nat.div_mul_le_self (n + 7) 8
  have h3 : (k + 1) * 8 ≤ ((n + 7) / 8) * 8 := Nat.mul_le_mul_right _ h
  omega

/-- Every index produced by range(0, n, 8) is below n. -/
theorem pyRange8_lt (n : Nat) : ∀ i ∈ pyRange 0 n 8, i < n := by
  intro i hi
  simp only [pyRange, List.mem_map, List.mem_range] at hi
  obtain ⟨k, hk, rfl⟩ := hi
  have := mul8_lt k n (by omega)
  omega

/-- Evaluation of get_5_day_forecast on a successful response holding a
series of well-formed points: the result is the header followed by the
newline-joined summaries of the stride-8 sample. -/
theorem fiveday_eval (lat lon units : String) (pts : List FPoint) :
    get_5_day_forecast lat lon units ⟨200, forecastPayload pts⟩
      = .ok (forecastHeader lat lon ++ String.intercalate "\n"
          ((sampleStride8 pts).map (daySummary (unit_symbol units)))) := by
  have h0 : get_5_day_forecast lat lon units ⟨200, forecastPayload pts⟩
      = (forecastLoop (unit_symbol units) (pts.map FPoint.toJson)
          (pyRange 0 (pts.map FPoint.toJson).length 8) >>= fun ds =>
            pure (forecastHeader lat lon ++ String.intercalate "\n" ds)) := rfl
  rw [h0, List.length_map,
    forecastLoop_eval (unit_symbol units) pts _ (pyRange8_lt pts.length)]
  simp [sampleStride8, List.map_map]
  rfl

/-- C1: the claim asserts a recursion cap of depth 1 and a visited-triple
check in the orchestrator.  No such guard exists in the code: the
orchestrator takes no depth or visited-set parameter, its judgment prompt
explicitly instructs the sampling capability to invoke the same tool again
(without restriction), and in fact every invocation raises an uncaught
ValueError or TypeError before the judgment stage, so the orchestration
described by the claim never completes even once. -/
theorem orchestrator_no_recursion_guard (city region cw f5 : String)
    (vacation_type : Option String) (ctx : Ctx) :
    (get_location_recommendation city region vacation_type ctx = .error .valueError ∨
     get_location_recommendation city region vacation_type ctx = .error .typeError)
    ∧ ∃ pre post : List Char,
        (recommendationPrompt city region vacation_type cw f5).data =
          pre ++ selfCallInstruction.data ++ post := by
  constructor
  · unfold get_location_recommendation
    rcases hd : (ctx.call_tool "get_coordinates" city).data with _ | ⟨a, _ | ⟨b, _ | ⟨c, t⟩⟩⟩
    · left; unfold unpack2; rw [hd]; rfl
    · left; unfold unpack2; rw [hd]; rfl
    · right; unfold unpack2; rw [hd]; rfl
    · left; unfold unpack2; rw [hd]; rfl
  · refine ⟨("The user is planning a " ++ pyStrOpt vacation_type ++ " vacation in " ++
      city ++ ", " ++ region ++ ". \n        The current weather is: " ++ cw ++
      "\n        The 5-day forecast is: " ++ f5 ++
      ".\n\n        Based on all this data, give me a detailed recommendation on whether this city is suitable for the vacation type and what to expect. If not, suggest an alternative city in the same region with better weather conditions for the vacation type. ").data,
      ("\n        ").data, ?_⟩
    simp [recommendationPrompt, String.data_append, List.append_assoc]

/-- C2: the claim asserts that after successful geocoding the orchestrator
fetches weather and forecast at the resolved coordinate (metric) and that
a geocoding failure yields a NotFound result.  In the code, even when the
geocoding dispatch succeeds, unpacking its string result into lat, lon
raises ValueError, so the call errors out; and the two fetch call sites
supply two positional arguments to three-parameter tools, so they raise
TypeError and are never issued against any coordinate. -/
theorem orchestrator_ignores_geocode_result (city region : String)
    (vacation_type : Option String) (ctx : Ctx) (name state lat lon : Json)
    (hgeo : ctx.call_tool "get_coordinates" city = coordSuccess name state lat lon) :
    get_location_recommendation city region vacation_type ctx = .error .valueError
    ∧ orchestratorWeatherCall city "metric" = .error .typeError
    ∧ orchestratorForecastCall city "metric" = .error .typeError := by
  refine ⟨?_, rfl, rfl⟩
  unfold get_location_recommendation
  rw [hgeo]
  rfl

/-- Witness for C2 at a concrete successful geocoding context. -/
theorem orchestrator_ignores_geocode_result_witness :
    get_location_recommendation "Toronto" "Ontario" (some "hiking") geocodeOkCtx
      = .error .valueError
    ∧ orchestratorWeatherCall "Toronto" "metric" = .error .typeError
    ∧ orchestratorForecastCall "Toronto" "metric" = .error .typeError :=
  orchestrator_ignores_geocode_result "Toronto" "Ontario" (some "hiking") geocodeOkCtx
    (.str "Toronto") (.str "Ontario") (.num "43.65") (.num "-79.38") rfl

/-- C3: the claim asserts that a failed stage yields a typed error naming
the stage and that no partially-populated judgment prompt is submitted.
In the code a failed geocoding stage and a successful one produce the very
same uncaught ValueError, so the outcome identifies no stage at all. -/
theorem orchestrator_stage_failure_not_typed (city region : String)
    (vacation_type : Option String) (ctxFail ctxOk : Ctx) (name state lat lon : Json)
    (hfail : ctxFail.call_tool "get_coordinates" city = geoNotFoundMsg city)
    (hok : ctxOk.call_tool "get_coordinates" city = coordSuccess name state lat lon) :
    get_location_recommendation city region vacation_type ctxFail = .error .valueError
    ∧ get_location_recommendation city region vacation_type ctxFail
        = get_location_recommendation city region vacation_type ctxOk := by
  have h1 : get_location_recommendation city region vacation_type ctxFail
      = .error .valueError := by
    unfold get_location_recommendation
    rw [hfail]
    rfl
  have h2 : get_location_recommendation city region vacation_type ctxOk
      = .error .valueError := by
    unfold get_location_recommendation
    rw [hok]
    rfl
  exact ⟨h1, h1.trans h2.symm⟩

/-- Witness for C3 at concrete failing and succeeding geocoding contexts. -/
theorem orchestrator_stage_failure_not_typed_witness :
    get_location_recommendation "Nowhere12345" "RegionX" (some "hiking") geocodeFailCtx
      = .error .valueError
    ∧ get_location_recommendation "Nowhere12345" "RegionX" (some "hiking") geocodeFailCtx
        = get_location_recommendation "Nowhere12345" "RegionX" (some "hiking") geocodeOkCtx :=
  orchestrator_stage_failure_not_typed "Nowhere12345" "RegionX" (some "hiking")
    geocodeFailCtx geocodeOkCtx (.str "Toronto") (.str "Ontario") (.num "43.65")
    (.num "-79.38") rfl rfl

/-- Evaluation of get_5_day_forecast on a one-point series. -/
theorem fiveday_single (lat lon units : String) (p : FPoint) :
    get_5_day_forecast lat lon units ⟨200, forecastPayload [p]⟩
      = .ok (forecastHeader lat lon ++ daySummary (unit_symbol units) p) := by
  have hs : sampleStride8 [p] = [p] := by
    unfold sampleStride8
    show List.map (fun i => [p].getD i default) (pyRange 0 1 8) = [p]
    rfl
  have h3 := fiveday_eval lat lon units [p]
  rw [hs, List.map_singleton,
    show String.intercalate "\n" [daySummary (unit_symbol units) p]
      = daySummary (unit_symbol units) p from rfl] at h3
  exact h3

/-- Counterexample for C4: with the unrecognized units value kelvin the
call neither validates nor errors; it silently renders the metric symbol
and returns a success string. -/
theorem unit_validation_counterexample :
    get_current_weather "43.65" "-79.38" "kelvin" ⟨200, c9Body⟩
      = .ok (weatherSuccessString "43.65" "-79.38" "light rain" "5" "°C" "80" "3" "200") :=
  rfl

/-- C4 as amended: the rendered unit symbol is °F exactly when units is
imperial, and °C for every other value of units — metric included, but
also any unrecognized value, which is accepted silently; no ValidationError
is produced by either tool. -/
theorem unit_symbol_amended (lat lon u t d h ws wd : String) (p : FPoint)
    (hu : u ≠ "imperial") :
    get_current_weather lat lon "imperial" ⟨200, weatherBody t d h ws wd⟩
      = .ok (weatherSuccessString lat lon d t "°F" h ws wd)
    ∧ get_current_weather lat lon u ⟨200, weatherBody t d h ws wd⟩
      = .ok (weatherSuccessString lat lon d t "°C" h ws wd)
    ∧ get_5_day_forecast lat lon "imperial" ⟨200, forecastPayload [p]⟩
      = .ok (forecastHeader lat lon ++ daySummary "°F" p)
    ∧ get_5_day_forecast lat lon u ⟨200, forecastPayload [p]⟩
      = .ok (forecastHeader lat lon ++ daySummary "°C" p) := by
  have hc : unit_symbol u = "°C" := by
    unfold unit_symbol
    rw [if_neg]
    simp [hu]
  have h2 : get_current_weather lat lon u ⟨200, weatherBody t d h ws wd⟩
      = .ok (weatherSuccessString lat lon d t (unit_symbol u) h ws wd) := rfl
  have h3 := fiveday_single lat lon "imperial" p
  have h4 := fiveday_single lat lon u p
  rw [hc] at h2 h4
  rw [show unit_symbol "imperial" = "°F" from rfl] at h3
  exact ⟨rfl, h2, h3, h4⟩

/-- Witness for the amended C4 at the unrecognized value kelvin. -/
theorem unit_symbol_amended_witness :
    get_current_weather "1" "2" "imperial" ⟨200, weatherBody "5" "mist" "80" "3" "200"⟩
      = .ok (weatherSuccessString "1" "2" "mist" "5" "°F" "80" "3" "200")
    ∧ get_current_weather "1" "2" "kelvin" ⟨200, weatherBody "5" "mist" "80" "3" "200"⟩
      = .ok (weatherSuccessString "1" "2" "mist" "5" "°C" "80" "3" "200")
    ∧ get_5_day_forecast "1" "2" "imperial"
        ⟨200, forecastPayload [⟨"2025-07-01 00:00:00", "20", "clear sky", "50", "3", "180"⟩]⟩
      = .ok (forecastHeader "1" "2" ++
          daySummary "°F" ⟨"2025-07-01 00:00:00", "20", "clear sky", "50", "3", "180"⟩)
    ∧ get_5_day_forecast "1" "2" "kelvin"
        ⟨200, forecastPayload [⟨"2025-07-01 00:00:00", "20", "clear sky", "50", "3", "180"⟩]⟩
      = .ok (forecastHeader "1" "2" ++
          daySummary "°C" ⟨"2025-07-01 00:00:00", "20", "clear sky", "50", "3", "180"⟩) :=
  unit_symbol_amended "1" "2" "kelvin" "5" "mist" "80" "3" "200"
    ⟨"2025-07-01 00:00:00", "20", "clear sky", "50", "3", "180"⟩ (by decide)

/-- C5: on a successful response whose list holds N well-formed three-hour
points, the result is the header plus the newline-joined summaries of the
points at indices 0, 8, 16, ... — exactly ceil(N/8) = (N+7)/8 of them, no
error for any N (fewer than 40 points just truncates) — and when points 24
hours apart carry strictly later dates, the sampled entries are dated
strictly increasing. -/
theorem forecast_stride8_normalization (lat lon units : String) (pts : List FPoint)
    (hInc : ∀ i, i + 8 < pts.length →
      (pts.getD i default).datePart.data < (pts.getD (i + 8) default).datePart.data) :
    get_5_day_forecast lat lon units ⟨200, forecastPayload pts⟩
      = .ok (forecastHeader lat lon ++ String.intercalate "\n"
          ((sampleStride8 pts).map (daySummary (unit_symbol units))))
    ∧ (sampleStride8 pts).length = (pts.length + 7) / 8
    ∧ List.Chain' (fun a b => a.datePart.data < b.datePart.data) (sampleStride8 pts) := by
  refine ⟨fiveday_eval lat lon units pts, ?_, ?_⟩
  · simp [sampleStride8, pyRange]
  · rw [sampleStride8, pyRange, List.map_map, List.chain'_map]
    rcases hm : (pts.length - 0 + 8 - 1) / 8 with _ | m0
    · simp
    · rw [List.chain'_range_succ]
      intro k hk
      have h1 : 8 * (k + 1) < pts.length := by
        apply mul8_lt
        omega
      have := hInc (8 * k) (by omega)
      simpa [Nat.mul_succ, Nat.add_comm] using this

/-- Witness for C5 at a concrete nine-point two-day series. -/
theorem forecast_stride8_normalization_witness :
    List.Chain' (fun a b => a.datePart.data < b.datePart.data) (sampleStride8 pts9) :=
  (forecast_stride8_normalization "43.65" "-79.38" "metric" pts9
    (by
      intro i hi
      have h9 : pts9.length = 9 := rfl
      rw [h9] at hi
      have h0 : i = 0 := by omega
      subst h0
      decide)).2.2

/-- C6: a successful geocoding response with an empty result list yields
exactly the zero-match error message, and that message is never equal to
any success rendering (which would be the only way the tool can hand back
a coordinate), so no default or placeholder coordinate is returned. -/
theorem geocode_empty_list_notfound (location : String) (name state lat lon : Json) :
    get_coordinates location ⟨200, .arr []⟩ = .ok (geoNotFoundMsg location)
    ∧ ((geoNotFoundMsg location) == coordSuccess name state lat lon) = false := by
  refine ⟨rfl, ?_⟩
  rw [beq_eq_false_iff_ne]
  intro h
  have h2 := congrArg (fun s => s.data.head?) h
  simp only at h2
  rw [show (geoNotFoundMsg location).data.head? = some (Char.ofNat 69) from rfl,
      show (coordSuccess name state lat lon).data.head? = some (Char.ofNat 76) from rfl] at h2
  exact absurd h2 (by decide)

/-- C7: the claim asserts that a payload with a missing nested field or an
empty result list produces a typed NormalizationError result and never an
uncaught lookup fault.  The code does the opposite: an empty air-quality
list raises IndexError, a daily object without uv_index_max raises
KeyError, and a weather body without its expected keys raises KeyError —
all uncaught. -/
theorem missing_field_raises_not_normalizes (lat lon units : String) :
    get_air_quality lat lon ⟨200, .obj [("list", .arr [])]⟩ = .error .indexError
    ∧ get_uv_index lat lon ⟨200, .obj [("daily", .obj [])]⟩ = .error .keyError
    ∧ get_current_weather lat lon units ⟨200, .obj [("main", .obj [])]⟩
        = .error .keyError :=
  ⟨rfl, rfl, rfl⟩

/-- C8: the claim asserts that a missing API key aborts startup before any
request can carry a None key.  In the code startup just binds API_KEY to
None and continues, and the request parameters of the weather tool then
carry appid = None. -/
theorem missing_api_key_not_fatal (lat lon units : String) :
    API_KEY (fun _ => none) = none
    ∧ get_current_weather_params lat lon units (API_KEY (fun _ => none))
        = [("lat", some lat), ("lon", some lon), ("appid", none), ("units", some units)] :=
  ⟨rfl, rfl⟩

/-- C9: the metric scenario of the spec: against the stub payload the tool
returns its location preamble followed by exactly the required suffix. -/
theorem current_weather_metric_scenario :
    get_current_weather "43.65" "-79.38" "metric" ⟨200, c9Body⟩
      = .ok ("The current weather in (43.65, -79.38) is " ++ c9Suffix) :=
  rfl

/-- C10: a successful forecast response with an empty list yields exactly
the header (the joined body is empty), not an error. -/
theorem forecast_empty_list_header (lat lon units : String) :
    get_5_day_forecast lat lon units ⟨200, .obj [("list", .arr [])]⟩
      = .ok (forecastHeader lat lon) := by
  have h : get_5_day_forecast lat lon units ⟨200, .obj [("list", .arr [])]⟩
      = .ok (forecastHeader lat lon ++ String.intercalate "\n" []) := rfl
  rw [show String.intercalate "\n" ([] : List String) = "" from rfl] at h
  simpa using h
